import Mathlib

/-!
Shallow embedding of the marker-sequenced navigation engine of this
repository: `NavigationController` in `src/navigation_controller.py`,
with its configuration constants from `config.py`.

Modelling conventions:
* Python floats (heights, pixel coordinates, distances, timestamps) are
  modelled as rationals.
* The wall-clock value that the Python code obtains internally via
  `time.time()` is made an explicit parameter (`current_time` / `now`) of
  the embedded functions, so that the dependence of each operation on the
  clock is visible in the model.
* The three `simple_pid.PID` controller objects live outside this
  repository; their numeric outputs are modelled as an oracle of
  arbitrary functions (one per axis).  Python `int()` truncation toward
  zero is modelled exactly.
* `np.arctan(dx/dy) * 180 / np.pi` for `dy = 0` follows numpy scalar
  semantics: division of a nonzero numpy float by zero yields ±infinity
  with a RuntimeWarning (no exception is raised, so the `except` branch
  in the source is not taken) and `arctan(±inf) * 180 / pi` evaluates to
  ±90 degrees.  For `dy ≠ 0` the angle value itself is irrelevant to the
  claims and is represented by an arbitrary function `atanDeg`.
-/

namespace TelloNav

/-- `config.py` `NAVIGATION_CONFIG["HEIGHT_TOLERANCE_CM"]`. -/
def HEIGHT_TOLERANCE_CM : ℚ := 4

/-- `config.py` `NAVIGATION_CONFIG["TARGET_LOST_TIMEOUT_SEC"]`. -/
def TARGET_LOST_TIMEOUT_SEC : ℚ := 3

/-- `config.py` `NAVIGATION_CONFIG["MAX_ID_TIME_RESET"]`. -/
def MAX_ID_TIME_RESET : ℚ := 5

/-- `config.py` `ARUCO_CONFIG["THRESHOLD"]`. -/
def THRESHOLD : ℚ := 25

/-- `config.py` `ARUCO_CONFIG["TARGET_X"]`. -/
def TARGET_X : ℚ := 160

/-- `config.py` `ARUCO_CONFIG["TARGET_Y"]`. -/
def TARGET_Y : ℚ := 192

/-- `camera_handler.py` `MarkerInfo` (the `corners` array is never read by
the navigation controller and is omitted). -/
structure MarkerInfo where
  id : ℕ
  center_x : ℚ
  center_y : ℚ
  distance : ℚ
deriving DecidableEq, Repr

/-- `navigation_controller.py` `NavigationPhase`. -/
inductive NavigationPhase where
  | TAKEOFF
  | ALIGNING
  | APPROACHING
  | LANDING
deriving DecidableEq, Repr

/-- `navigation_controller.py` `NavigationState`. -/
structure NavigationState where
  phase : NavigationPhase
  target_id : ℕ
  reached_id : ℕ
  max_id : ℕ
  last_target_time : ℚ
  last_max_id_time : ℚ
deriving DecidableEq, Repr

/-- The state built in `NavigationController.__init__` (lines 57-65);
`t0` stands for the `time.time()` value read there. -/
def initState (t0 : ℚ) : NavigationState :=
  { phase := NavigationPhase.TAKEOFF
    target_id := 1
    reached_id := 0
    max_id := 0
    last_target_time := t0
    last_max_id_time := t0 }

/-- Python `max(marker.id for marker in markers)` over a non-empty list
(line 82); on `[]` the generator would raise, the embedding returns 0 but
is only ever applied under the non-emptiness guard of line 81. -/
def listMaxId : List MarkerInfo → ℕ
  | [] => 0
  | m :: ms => ms.foldl (fun a x => max a x.id) m.id

/-- Python `next((m for m in markers if m.id == target_id), None)`
(line 88): the first observation whose identity equals `target_id`. -/
def findTarget (markers : List MarkerInfo) (target_id : ℕ) : Option MarkerInfo :=
  markers.find? (fun m => m.id == target_id)

/-- Lines 80-85 of `update_state`: raise `max_id` (and stamp
`last_max_id_time`) when a strictly larger identity is observed. -/
def updateMaxId (s : NavigationState) (markers : List MarkerInfo)
    (current_time : ℚ) : NavigationState :=
  if markers ≠ [] then
    if listMaxId markers > s.max_id then
      { s with max_id := listMaxId markers, last_max_id_time := current_time }
    else s
  else s

/-- Lines 87-90 of `update_state`: stamp `last_target_time` when the
current target marker is present. -/
def markSeen (s : NavigationState) (target_marker : Option MarkerInfo)
    (current_time : ℚ) : NavigationState :=
  match target_marker with
  | some _ => { s with last_target_time := current_time }
  | none => s

/-- Lines 92-111 of `update_state`: the phase-transition block. -/
def updatePhase (s : NavigationState) (target_marker : Option MarkerInfo)
    (current_height target_height : ℚ) : NavigationState :=
  match s.phase with
  | NavigationPhase.TAKEOFF =>
      if |current_height - target_height| ≤ HEIGHT_TOLERANCE_CM then
        { s with phase := NavigationPhase.ALIGNING }
      else s
  | NavigationPhase.ALIGNING =>
      match target_marker with
      | some tm =>
          if tm.distance ≤ THRESHOLD then
            { s with phase := NavigationPhase.APPROACHING }
          else s
      | none => s
  | NavigationPhase.APPROACHING =>
      match target_marker with
      | some tm =>
          if tm.distance ≤ THRESHOLD then
            if s.target_id = 0 then
              { s with phase := NavigationPhase.LANDING }
            else
              { s with reached_id := s.reached_id + 1, target_id := s.target_id + 1 }
          else s
      | none => s
  | NavigationPhase.LANDING => s

/-- `NavigationController.update_state` (lines 75-113).  `current_time`
models the `time.time()` read at line 78.  The function never raises on
the embedded inputs, so the `except` branch (lines 115-117) is dead and
the Python return value is always `True`; only the state effect is
modelled. -/
def update_state (s : NavigationState) (markers : List MarkerInfo)
    (current_height target_height : ℚ) (current_time : ℚ) : NavigationState :=
  let s1 := updateMaxId s markers current_time
  let target_marker := findTarget markers s1.target_id
  let s2 := markSeen s1 target_marker current_time
  updatePhase s2 target_marker current_height target_height

/-- `NavigationController.is_target_lost` (lines 172-174); `now` models
the `time.time()` read at line 174. -/
def is_target_lost (s : NavigationState) (now : ℚ) : Bool :=
  decide (now - s.last_target_time > TARGET_LOST_TIMEOUT_SEC)

/-- `NavigationController.should_update_max_id` (lines 176-178); `now`
models the `time.time()` read at line 178. -/
def should_update_max_id (s : NavigationState) (now : ℚ) : Bool :=
  decide (now - s.last_max_id_time > MAX_ID_TIME_RESET)

/-- Arguments of one `update_state` call: the per-tick observation list
and heights, plus the wall-clock value `time.time()` returns during that
call. -/
structure Tick where
  markers : List MarkerInfo
  current_height : ℚ
  target_height : ℚ
  time : ℚ
deriving Repr

/-- A sequence of `update_state` calls applied in order. -/
def run (s : NavigationState) : List Tick → NavigationState
  | [] => s
  | t :: ts => run (update_state s t.markers t.current_height t.target_height t.time) ts

/-- Python `int()` on a float: truncation toward zero. -/
def pyInt (q : ℚ) : ℤ :=
  if 0 ≤ q then q.floor else q.ceil

/-- The clamp of line 158: `max(min(v, 100), -100)`. -/
def clamp (v : ℤ) : ℤ :=
  max (min v 100) (-100)

/-- The four-field command dictionary returned by `calculate_control`. -/
structure ControlValues where
  left_right : ℤ
  forward_backward : ℤ
  up_down : ℤ
  yaw : ℤ
deriving DecidableEq, Repr

/-- Oracle for the three stateful `simple_pid.PID` objects: each call
site's numeric result is an arbitrary function of the value passed in
(the controllers live outside this repository). -/
structure PidOracle where
  pid_x : ℚ → ℚ
  pid_y : ℚ → ℚ
  pid_r : ℚ → ℚ

/-- The rotation-error computation of lines 138-145 under numpy scalar
semantics.  `atanDeg` stands for `np.arctan(r) * 180 / np.pi` at a finite
argument.  When `dx ≠ 0` and `dy = 0`, `dx/dy` is ±infinity (numpy emits
a RuntimeWarning, raising nothing, so the `except` of line 142 is not
taken) and `np.arctan(±inf) * 180 / np.pi` is ±90 (up to one float ulp);
when `dx = 0` the `else` of line 144 yields 0. -/
def rotation_error (atanDeg : ℚ → ℚ) (dx dy : ℚ) : ℚ :=
  if dx ≠ 0 then
    if dy = 0 then (if 0 < dx then 90 else -90)
    else atanDeg (dx / dy)
  else 0

/-- Modelled from the spec (§4.3 step 4 and §7): the spec's stated
rotation-error rule, `atan2-style angle derived from dx/dy when dy != 0
and dx != 0, else 0`, with a zero denominator degrading to a zero
rotation error. -/
def rotation_error_specModel (atanDeg : ℚ → ℚ) (dx dy : ℚ) : ℚ :=
  if dx ≠ 0 ∧ dy ≠ 0 then atanDeg (dx / dy) else 0

/-- `NavigationController.calculate_control` (lines 119-164).  The
`except` branch (lines 162-164) would return the all-zero dictionary; on
the embedded inputs no exception occurs, so only the normal path is
modelled (the all-zero dictionary satisfies every bound proved below as
well). -/
def calculate_control (atanDeg : ℚ → ℚ) (po : PidOracle)
    (phase : NavigationPhase) (target_marker : Option MarkerInfo)
    (current_height target_height : ℚ) : ControlValues :=
  let base : ControlValues :=
    { left_right := 0, forward_backward := 0, up_down := 0, yaw := 0 }
  let withHeight :=
    if current_height > target_height + HEIGHT_TOLERANCE_CM then
      { base with up_down := -20 }
    else if current_height < target_height - HEIGHT_TOLERANCE_CM then
      { base with up_down := 20 }
    else base
  let cv :=
    match target_marker with
    | none => withHeight
    | some tm =>
        let dx := (tm.center_x - TARGET_X) / TARGET_X
        let dy := (TARGET_Y - tm.center_y) / TARGET_Y
        let re := rotation_error atanDeg dx dy
        if phase = NavigationPhase.ALIGNING then
          { withHeight with yaw := pyInt (po.pid_r (-re)) }
        else
          { withHeight with
              left_right := pyInt (po.pid_x (-dx * 100))
              forward_backward := pyInt (po.pid_y (-dy * 100)) }
  { left_right := clamp cv.left_right
    forward_backward := clamp cv.forward_backward
    up_down := clamp cv.up_down
    yaw := clamp cv.yaw }

/-- The clock-independent fields of a `NavigationState`:
(phase, target_id, reached_id, max_id). -/
def discretePart (s : NavigationState) : NavigationPhase × ℕ × ℕ × ℕ :=
  (s.phase, s.target_id, s.reached_id, s.max_id)

/-- The effect of one `update_state` call on the clock-independent
fields, written without any timestamp; proved below to agree with
`update_state` (lemma `discretePart_update_state`). -/
def discreteStep (ph : NavigationPhase) (ti ri mi : ℕ)
    (markers : List MarkerInfo) (current_height target_height : ℚ) :
    NavigationPhase × ℕ × ℕ × ℕ :=
  let mi2 := if markers ≠ [] ∧ listMaxId markers > mi then listMaxId markers else mi
  match ph with
  | NavigationPhase.TAKEOFF =>
      (if |current_height - target_height| ≤ HEIGHT_TOLERANCE_CM then
        NavigationPhase.ALIGNING else NavigationPhase.TAKEOFF, ti, ri, mi2)
  | NavigationPhase.ALIGNING =>
      (match findTarget markers ti with
       | some tm =>
          if tm.distance ≤ THRESHOLD then NavigationPhase.APPROACHING
          else NavigationPhase.ALIGNING
       | none => NavigationPhase.ALIGNING, ti, ri, mi2)
  | NavigationPhase.APPROACHING =>
      match findTarget markers ti with
      | some tm =>
          if tm.distance ≤ THRESHOLD then
            if ti = 0 then (NavigationPhase.LANDING, ti, ri, mi2)
            else (NavigationPhase.APPROACHING, ti + 1, ri + 1, mi2)
          else (NavigationPhase.APPROACHING, ti, ri, mi2)
      | none => (NavigationPhase.APPROACHING, ti, ri, mi2)
  | NavigationPhase.LANDING => (NavigationPhase.LANDING, ti, ri, mi2)

/-- A forward (marker-advance) transition: the guard of lines 103-110
taking the `else` branch of line 108, which is exactly the situation in
which `reached_id` and `target_id` are incremented. -/
def isForward (s : NavigationState) (markers : List MarkerInfo) : Bool :=
  s.phase == NavigationPhase.APPROACHING &&
  (match findTarget markers s.target_id with
   | some tm => decide (tm.distance ≤ THRESHOLD)
   | none => false) &&
  s.target_id != 0

/-- Number of forward transitions along a sequence of `update_state`
calls. -/
def countForward (s : NavigationState) : List Tick → ℕ
  | [] => 0
  | t :: ts =>
      (if isForward s t.markers then 1 else 0) +
        countForward (update_state s t.markers t.current_height t.target_height t.time) ts

/-! ### Basic lemmas about the embedded operations -/

lemma clamp_le (v : ℤ) : clamp v ≤ 100 := by
  unfold clamp; omega

lemma neg_le_clamp (v : ℤ) : -100 ≤ clamp v := by
  unfold clamp; omega

lemma updateMaxId_phase (s : NavigationState) (ms : List MarkerInfo) (t : ℚ) :
    (updateMaxId s ms t).phase = s.phase := by
  unfold updateMaxId
  split
  · split <;> rfl
  · rfl

lemma updateMaxId_target_id (s : NavigationState) (ms : List MarkerInfo) (t : ℚ) :
    (updateMaxId s ms t).target_id = s.target_id := by
  unfold updateMaxId
  split
  · split <;> rfl
  · rfl

lemma updateMaxId_reached_id (s : NavigationState) (ms : List MarkerInfo) (t : ℚ) :
    (updateMaxId s ms t).reached_id = s.reached_id := by
  unfold updateMaxId
  split
  · split <;> rfl
  · rfl

lemma updateMaxId_max_id (s : NavigationState) (ms : List MarkerInfo) (t : ℚ) :
    (updateMaxId s ms t).max_id =
      if ms ≠ [] ∧ listMaxId ms > s.max_id then listMaxId ms else s.max_id := by
  unfold updateMaxId
  split
  · next hne =>
    split
    · next hgt => simp [hne, hgt]
    · next hgt => simp [hne, hgt]
  · next hne => simp [hne]

lemma markSeen_phase (s : NavigationState) (tm : Option MarkerInfo) (t : ℚ) :
    (markSeen s tm t).phase = s.phase := by
  cases tm <;> rfl

lemma markSeen_target_id (s : NavigationState) (tm : Option MarkerInfo) (t : ℚ) :
    (markSeen s tm t).target_id = s.target_id := by
  cases tm <;> rfl

lemma markSeen_reached_id (s : NavigationState) (tm : Option MarkerInfo) (t : ℚ) :
    (markSeen s tm t).reached_id = s.reached_id := by
  cases tm <;> rfl

lemma markSeen_max_id (s : NavigationState) (tm : Option MarkerInfo) (t : ℚ) :
    (markSeen s tm t).max_id = s.max_id := by
  cases tm <;> rfl

lemma updatePhase_takeoff (s : NavigationState) (tm : Option MarkerInfo) (h th : ℚ)
    (hp : s.phase = NavigationPhase.TAKEOFF) :
    updatePhase s tm h th =
      if |h - th| ≤ HEIGHT_TOLERANCE_CM then
        { s with phase := NavigationPhase.ALIGNING }
      else s := by
  obtain ⟨ph, ti, ri, mi, ltt, lmt⟩ := s
  dsimp only at hp
  subst hp
  rfl

lemma updatePhase_aligning (s : NavigationState) (tm : Option MarkerInfo) (h th : ℚ)
    (hp : s.phase = NavigationPhase.ALIGNING) :
    updatePhase s tm h th =
      match tm with
      | some m =>
          if m.distance ≤ THRESHOLD then
            { s with phase := NavigationPhase.APPROACHING }
          else s
      | none => s := by
  obtain ⟨ph, ti, ri, mi, ltt, lmt⟩ := s
  dsimp only at hp
  subst hp
  rfl

lemma updatePhase_approaching (s : NavigationState) (tm : Option MarkerInfo) (h th : ℚ)
    (hp : s.phase = NavigationPhase.APPROACHING) :
    updatePhase s tm h th =
      match tm with
      | some m =>
          if m.distance ≤ THRESHOLD then
            if s.target_id = 0 then
              { s with phase := NavigationPhase.LANDING }
            else
              { s with reached_id := s.reached_id + 1, target_id := s.target_id + 1 }
          else s
      | none => s := by
  obtain ⟨ph, ti, ri, mi, ltt, lmt⟩ := s
  dsimp only at hp
  subst hp
  rfl

lemma updatePhase_landing (s : NavigationState) (tm : Option MarkerInfo) (h th : ℚ)
    (hp : s.phase = NavigationPhase.LANDING) :
    updatePhase s tm h th = s := by
  obtain ⟨ph, ti, ri, mi, ltt, lmt⟩ := s
  dsimp only at hp
  subst hp
  rfl

lemma update_state_eq (s : NavigationState) (ms : List MarkerInfo) (h th t : ℚ) :
    update_state s ms h th t =
      updatePhase (markSeen (updateMaxId s ms t) (findTarget ms s.target_id) t)
        (findTarget ms s.target_id) h th := by
  simp only [update_state, updateMaxId_target_id]

lemma discretePart_update_state (s : NavigationState) (ms : List MarkerInfo)
    (h th t : ℚ) :
    discretePart (update_state s ms h th t) =
      discreteStep s.phase s.target_id s.reached_id s.max_id ms h th := by
  rw [update_state_eq]
  have h2ph : (markSeen (updateMaxId s ms t) (findTarget ms s.target_id) t).phase
      = s.phase := by rw [markSeen_phase, updateMaxId_phase]
  have h2ti : (markSeen (updateMaxId s ms t) (findTarget ms s.target_id) t).target_id
      = s.target_id := by rw [markSeen_target_id, updateMaxId_target_id]
  have h2ri : (markSeen (updateMaxId s ms t) (findTarget ms s.target_id) t).reached_id
      = s.reached_id := by rw [markSeen_reached_id, updateMaxId_reached_id]
  have h2mi : (markSeen (updateMaxId s ms t) (findTarget ms s.target_id) t).max_id
      = if ms ≠ [] ∧ listMaxId ms > s.max_id then listMaxId ms else s.max_id := by
    rw [markSeen_max_id, updateMaxId_max_id]
  set s2 := markSeen (updateMaxId s ms t) (findTarget ms s.target_id) t with hs2
  cases hph : s.phase
  case TAKEOFF =>
    rw [updatePhase_takeoff s2 _ h th (h2ph.trans hph)]
    simp only [discreteStep]
    rw [← h2mi]
    split_ifs with hc <;> simp [discretePart, h2ph, hph, h2ti, h2ri]
  case ALIGNING =>
    rw [updatePhase_aligning s2 _ h th (h2ph.trans hph)]
    simp only [discreteStep]
    rw [← h2mi]
    cases hf : findTarget ms s.target_id with
    | none => simp [discretePart, h2ph, hph, h2ti, h2ri]
    | some m =>
        dsimp only
        split_ifs with hc <;> simp [discretePart, h2ph, hph, h2ti, h2ri]
  case APPROACHING =>
    rw [updatePhase_approaching s2 _ h th (h2ph.trans hph)]
    simp only [discreteStep]
    rw [← h2mi]
    cases hf : findTarget ms s.target_id with
    | none => simp [discretePart, h2ph, hph, h2ti, h2ri]
    | some m =>
        dsimp only
        by_cases hc : m.distance ≤ THRESHOLD
        · by_cases hz : s.target_id = 0
          · simp [discretePart, h2ph, hph, h2ti, h2ri, hc, hz]
          · simp [discretePart, h2ph, hph, h2ti, h2ri, hc, hz]
        · simp [discretePart, h2ph, hph, h2ti, h2ri, hc]
  case LANDING =>
    rw [updatePhase_landing s2 _ h th (h2ph.trans hph)]
    simp only [discreteStep]
    rw [← h2mi]
    simp [discretePart, h2ph, hph, h2ti, h2ri]

lemma update_state_components (s : NavigationState) (ms : List MarkerInfo) (h th t : ℚ) :
    (update_state s ms h th t).phase
        = (discreteStep s.phase s.target_id s.reached_id s.max_id ms h th).1 ∧
      (update_state s ms h th t).target_id
        = (discreteStep s.phase s.target_id s.reached_id s.max_id ms h th).2.1 ∧
      (update_state s ms h th t).reached_id
        = (discreteStep s.phase s.target_id s.reached_id s.max_id ms h th).2.2.1 ∧
      (update_state s ms h th t).max_id
        = (discreteStep s.phase s.target_id s.reached_id s.max_id ms h th).2.2.2 := by
  have hd := discretePart_update_state s ms h th t
  rw [discretePart, Prod.ext_iff, Prod.ext_iff, Prod.ext_iff] at hd
  exact ⟨hd.1, hd.2.1, hd.2.2.1, hd.2.2.2⟩

/-! ### Facts about the clock-free step -/

lemma discreteStep_target_le (ph : NavigationPhase) (ti ri mi : ℕ)
    (ms : List MarkerInfo) (h th : ℚ) :
    ti ≤ (discreteStep ph ti ri mi ms h th).2.1 := by
  unfold discreteStep
  cases ph
  case TAKEOFF => simp
  case ALIGNING => simp
  case APPROACHING =>
    cases findTarget ms ti with
    | none => simp
    | some m =>
        dsimp only
        split_ifs <;> simp
  case LANDING => simp

lemma discreteStep_max_eq (ph : NavigationPhase) (ti ri mi : ℕ)
    (ms : List MarkerInfo) (h th : ℚ) :
    (discreteStep ph ti ri mi ms h th).2.2.2 =
      if ms ≠ [] ∧ listMaxId ms > mi then listMaxId ms else mi := by
  unfold discreteStep
  cases ph
  case TAKEOFF => simp
  case ALIGNING => simp
  case APPROACHING =>
    cases findTarget ms ti with
    | none => simp
    | some m =>
        dsimp only
        split_ifs <;> simp
  case LANDING => simp

lemma discreteStep_max_le (ph : NavigationPhase) (ti ri mi : ℕ)
    (ms : List MarkerInfo) (h th : ℚ) :
    mi ≤ (discreteStep ph ti ri mi ms h th).2.2.2 := by
  rw [discreteStep_max_eq]
  split_ifs with hc
  · exact Nat.le_of_lt hc.2
  · exact le_refl _

lemma discreteStep_inv (ph : NavigationPhase) (ti ri mi : ℕ)
    (ms : List MarkerInfo) (h th : ℚ) (hti : ti = ri + 1)
    (hph : ph ≠ NavigationPhase.LANDING) :
    (discreteStep ph ti ri mi ms h th).2.1 =
        (discreteStep ph ti ri mi ms h th).2.2.1 + 1 ∧
      (discreteStep ph ti ri mi ms h th).1 ≠ NavigationPhase.LANDING := by
  unfold discreteStep
  cases ph
  case TAKEOFF =>
    dsimp only
    split_ifs <;> simp [hti]
  case ALIGNING =>
    cases findTarget ms ti with
    | none => simp [hti]
    | some m =>
        dsimp only
        split_ifs <;> simp [hti]
  case APPROACHING =>
    cases findTarget ms ti with
    | none => simp [hti]
    | some m =>
        dsimp only
        split_ifs <;> first
          | (exfalso; omega)
          | simp [hti]
  case LANDING => exact absurd rfl hph

lemma discreteStep_phase_takeoff (ph : NavigationPhase) (ti ri mi : ℕ)
    (ms : List MarkerInfo) (h th : ℚ)
    (hres : (discreteStep ph ti ri mi ms h th).1 = NavigationPhase.TAKEOFF) :
    ph = NavigationPhase.TAKEOFF := by
  unfold discreteStep at hres
  cases ph
  case TAKEOFF => rfl
  case ALIGNING =>
    exfalso
    cases hf : findTarget ms ti <;> rw [hf] at hres <;> dsimp only at hres
    · exact absurd hres (by simp)
    · revert hres; split_ifs <;> simp
  case APPROACHING =>
    exfalso
    cases hf : findTarget ms ti <;> rw [hf] at hres <;> dsimp only at hres
    · exact absurd hres (by simp)
    · revert hres; split_ifs <;> simp
  case LANDING => exact absurd hres (by simp)

lemma discreteStep_phase_landing (ti ri mi : ℕ)
    (ms : List MarkerInfo) (h th : ℚ) :
    (discreteStep NavigationPhase.LANDING ti ri mi ms h th).1 =
      NavigationPhase.LANDING := rfl

/-! ### Facts about sequences of calls -/

lemma run_append (s : NavigationState) (a b : List Tick) :
    run s (a ++ b) = run (run s a) b := by
  induction a generalizing s with
  | nil => rfl
  | cons t ts ih => simpa [run] using ih _

lemma update_state_target_le (s : NavigationState) (ms : List MarkerInfo) (h th t : ℚ) :
    s.target_id ≤ (update_state s ms h th t).target_id := by
  rw [(update_state_components s ms h th t).2.1]
  exact discreteStep_target_le _ _ _ _ _ _ _

lemma update_state_max_le (s : NavigationState) (ms : List MarkerInfo) (h th t : ℚ) :
    s.max_id ≤ (update_state s ms h th t).max_id := by
  rw [(update_state_components s ms h th t).2.2.2]
  exact discreteStep_max_le _ _ _ _ _ _ _

lemma run_target_le (ticks : List Tick) (s : NavigationState) :
    s.target_id ≤ (run s ticks).target_id := by
  induction ticks generalizing s with
  | nil => exact le_refl _
  | cons t ts ih =>
      exact le_trans (update_state_target_le s t.markers t.current_height t.target_height t.time)
        (ih _)

lemma run_max_le (ticks : List Tick) (s : NavigationState) :
    s.max_id ≤ (run s ticks).max_id := by
  induction ticks generalizing s with
  | nil => exact le_refl _
  | cons t ts ih =>
      exact le_trans (update_state_max_le s t.markers t.current_height t.target_height t.time)
        (ih _)

lemma update_state_inv (s : NavigationState) (ms : List MarkerInfo) (h th t : ℚ)
    (hti : s.target_id = s.reached_id + 1) (hph : s.phase ≠ NavigationPhase.LANDING) :
    (update_state s ms h th t).target_id = (update_state s ms h th t).reached_id + 1 ∧
      (update_state s ms h th t).phase ≠ NavigationPhase.LANDING := by
  obtain ⟨hcp, hct, hcr, _⟩ := update_state_components s ms h th t
  rw [hcp, hct, hcr]
  exact discreteStep_inv _ _ _ _ _ _ _ hti hph

lemma run_inv (ticks : List Tick) (s : NavigationState)
    (hti : s.target_id = s.reached_id + 1) (hph : s.phase ≠ NavigationPhase.LANDING) :
    (run s ticks).target_id = (run s ticks).reached_id + 1 ∧
      (run s ticks).phase ≠ NavigationPhase.LANDING := by
  induction ticks generalizing s with
  | nil => exact ⟨hti, hph⟩
  | cons t ts ih =>
      obtain ⟨h1, h2⟩ :=
        update_state_inv s t.markers t.current_height t.target_height t.time hti hph
      exact ih _ h1 h2

lemma run_landing (ticks : List Tick) (s : NavigationState)
    (hph : s.phase = NavigationPhase.LANDING) :
    (run s ticks).phase = NavigationPhase.LANDING := by
  induction ticks generalizing s with
  | nil => exact hph
  | cons t ts ih =>
      refine ih _ ?_
      rw [(update_state_components s t.markers t.current_height t.target_height t.time).1, hph]
      exact discreteStep_phase_landing _ _ _ _ _ _

lemma update_state_phase_takeoff_rev (s : NavigationState) (ms : List MarkerInfo)
    (h th t : ℚ) (hres : (update_state s ms h th t).phase = NavigationPhase.TAKEOFF) :
    s.phase = NavigationPhase.TAKEOFF := by
  rw [(update_state_components s ms h th t).1] at hres
  exact discreteStep_phase_takeoff _ _ _ _ _ _ _ hres

lemma run_no_takeoff_return (ticks : List Tick) (s : NavigationState)
    (hph : s.phase ≠ NavigationPhase.TAKEOFF) :
    (run s ticks).phase ≠ NavigationPhase.TAKEOFF := by
  induction ticks generalizing s with
  | nil => exact hph
  | cons t ts ih =>
      refine ih _ ?_
      intro hres
      exact hph (update_state_phase_takeoff_rev s t.markers t.current_height
        t.target_height t.time hres)

/-! ### Phase-specific behaviour of one call -/

lemma update_state_phase_of_takeoff (s : NavigationState) (ms : List MarkerInfo)
    (h th t : ℚ) (hph : s.phase = NavigationPhase.TAKEOFF) :
    (update_state s ms h th t).phase =
      if |h - th| ≤ HEIGHT_TOLERANCE_CM then NavigationPhase.ALIGNING
      else NavigationPhase.TAKEOFF := by
  rw [(update_state_components s ms h th t).1, hph]
  rfl

lemma update_state_phase_of_aligning (s : NavigationState) (ms : List MarkerInfo)
    (h th t : ℚ) (hph : s.phase = NavigationPhase.ALIGNING) :
    (update_state s ms h th t).phase =
      match findTarget ms s.target_id with
      | some tm =>
          if tm.distance ≤ THRESHOLD then NavigationPhase.APPROACHING
          else NavigationPhase.ALIGNING
      | none => NavigationPhase.ALIGNING := by
  rw [(update_state_components s ms h th t).1, hph]
  rfl

lemma update_state_approach_advance (s : NavigationState) (ms : List MarkerInfo)
    (h th t : ℚ) (tm : MarkerInfo) (hph : s.phase = NavigationPhase.APPROACHING)
    (hf : findTarget ms s.target_id = some tm) (hdist : tm.distance ≤ THRESHOLD)
    (hz : s.target_id ≠ 0) :
    (update_state s ms h th t).reached_id = s.reached_id + 1 ∧
      (update_state s ms h th t).target_id = s.target_id + 1 ∧
      (update_state s ms h th t).phase = NavigationPhase.APPROACHING := by
  obtain ⟨hcp, hct, hcr, _⟩ := update_state_components s ms h th t
  simp only [hph, discreteStep, hf, hdist, if_true, hz, if_false, if_neg hz,
    if_pos hdist] at hcp hct hcr
  exact ⟨hcr, hct, hcp⟩

lemma update_state_approach_land (s : NavigationState) (ms : List MarkerInfo)
    (h th t : ℚ) (tm : MarkerInfo) (hph : s.phase = NavigationPhase.APPROACHING)
    (hf : findTarget ms s.target_id = some tm) (hdist : tm.distance ≤ THRESHOLD)
    (hz : s.target_id = 0) :
    (update_state s ms h th t).phase = NavigationPhase.LANDING ∧
      (update_state s ms h th t).reached_id = s.reached_id ∧
      (update_state s ms h th t).target_id = s.target_id := by
  obtain ⟨hcp, hct, hcr, _⟩ := update_state_components s ms h th t
  simp only [hph, discreteStep, hf, if_pos hdist, if_pos hz] at hcp hct hcr
  exact ⟨hcp, hcr, hct⟩

lemma update_state_reached_count (s : NavigationState) (ms : List MarkerInfo)
    (h th t : ℚ) :
    (update_state s ms h th t).reached_id =
      s.reached_id + (if isForward s ms then 1 else 0) := by
  rw [(update_state_components s ms h th t).2.2.1]
  unfold discreteStep isForward
  cases hph : s.phase
  case TAKEOFF => simp
  case ALIGNING => simp
  case APPROACHING =>
    cases hf : findTarget ms s.target_id with
    | none => simp
    | some m =>
        dsimp only
        by_cases hc : m.distance ≤ THRESHOLD
        · by_cases hz : s.target_id = 0
          · simp [hc, hz]
          · simp [hc, hz]
        · simp [hc]
  case LANDING => simp

lemma run_reached_count (ticks : List Tick) (s : NavigationState) :
    (run s ticks).reached_id = s.reached_id + countForward s ticks := by
  induction ticks generalizing s with
  | nil => simp [run, countForward]
  | cons t ts ih =>
      simp only [run, countForward]
      rw [ih, update_state_reached_count]
      omega

lemma updatePhase_last_max_id_time (s : NavigationState) (tm : Option MarkerInfo)
    (h th : ℚ) :
    (updatePhase s tm h th).last_max_id_time = s.last_max_id_time := by
  obtain ⟨ph, ti, ri, mi, ltt, lmt⟩ := s
  cases ph <;> cases tm <;> dsimp only [updatePhase] <;> split_ifs <;> rfl

lemma markSeen_last_max_id_time (s : NavigationState) (tm : Option MarkerInfo) (t : ℚ) :
    (markSeen s tm t).last_max_id_time = s.last_max_id_time := by
  cases tm <;> rfl

lemma updateMaxId_set (s : NavigationState) (ms : List MarkerInfo) (t : ℚ)
    (hne : ms ≠ []) (hgt : listMaxId ms > s.max_id) :
    updateMaxId s ms t = { s with max_id := listMaxId ms, last_max_id_time := t } := by
  unfold updateMaxId
  rw [if_pos hne, if_pos hgt]

lemma update_state_max_set (s : NavigationState) (ms : List MarkerInfo) (h th t : ℚ)
    (hne : ms ≠ []) (hgt : listMaxId ms > s.max_id) :
    (update_state s ms h th t).max_id = listMaxId ms ∧
      (update_state s ms h th t).last_max_id_time = t := by
  constructor
  · rw [(update_state_components s ms h th t).2.2.2, discreteStep_max_eq,
      if_pos ⟨hne, hgt⟩]
  · rw [update_state_eq, updatePhase_last_max_id_time, markSeen_last_max_id_time,
      updateMaxId_set s ms t hne hgt]

lemma updatePhase_last_target_time (s : NavigationState) (tm : Option MarkerInfo)
    (h th : ℚ) :
    (updatePhase s tm h th).last_target_time = s.last_target_time := by
  obtain ⟨ph, ti, ri, mi, ltt, lmt⟩ := s
  cases ph <;> cases tm <;> dsimp only [updatePhase] <;> split_ifs <;> rfl

lemma update_state_last_target_time_some (s : NavigationState) (ms : List MarkerInfo)
    (h th t : ℚ) (tm : MarkerInfo) (hf : findTarget ms s.target_id = some tm) :
    (update_state s ms h th t).last_target_time = t := by
  rw [update_state_eq, updatePhase_last_target_time, hf]
  rfl

/-! ### Clock noninterference for the discrete fields -/

lemma discretePart_congr (s1 s2 : NavigationState) (ms1 ms2 : List MarkerInfo)
    (h1 h2 th1 th2 t1 t2 : ℚ) (hds : discretePart s1 = discretePart s2)
    (hm : ms1 = ms2) (hh : h1 = h2) (hth : th1 = th2) :
    discretePart (update_state s1 ms1 h1 th1 t1) =
      discretePart (update_state s2 ms2 h2 th2 t2) := by
  subst hm; subst hh; subst hth
  rw [discretePart_update_state, discretePart_update_state]
  simp only [discretePart, Prod.mk.injEq] at hds
  rw [hds.1, hds.2.1, hds.2.2.1, hds.2.2.2]

lemma run_discrete_congr (l1 : List Tick) (l2 : List Tick) (s1 s2 : NavigationState)
    (hds : discretePart s1 = discretePart s2)
    (hargs : l1.map (fun t => (t.markers, t.current_height, t.target_height))
           = l2.map (fun t => (t.markers, t.current_height, t.target_height))) :
    discretePart (run s1 l1) = discretePart (run s2 l2) := by
  induction l1 generalizing l2 s1 s2 with
  | nil =>
      cases l2 with
      | nil => exact hds
      | cons u us => simp at hargs
  | cons t ts ih =>
      cases l2 with
      | nil => simp at hargs
      | cons u us =>
          simp only [List.map_cons, List.cons.injEq, Prod.mk.injEq] at hargs
          obtain ⟨⟨hm, hh, hth⟩, htail⟩ := hargs
          simp only [run]
          exact ih _ _ _
            (discretePart_congr s1 s2 t.markers u.markers t.current_height
              u.current_height t.target_height u.target_height t.time u.time
              hds hm hh hth) htail

/-! ### Claim theorems -/

/-- C1: for every call to `calculate_control`, in every phase and for
every input (target marker present or absent, any heights, any PID
outputs), each of the four fields of the returned command (left_right,
forward_backward, up_down, yaw) lies within [-100, 100]. -/
theorem C1_control_command_clamped (atanDeg : ℚ → ℚ) (po : PidOracle)
    (phase : NavigationPhase) (tm : Option MarkerInfo) (h th : ℚ) :
    -100 ≤ (calculate_control atanDeg po phase tm h th).left_right ∧
      (calculate_control atanDeg po phase tm h th).left_right ≤ 100 ∧
      -100 ≤ (calculate_control atanDeg po phase tm h th).forward_backward ∧
      (calculate_control atanDeg po phase tm h th).forward_backward ≤ 100 ∧
      -100 ≤ (calculate_control atanDeg po phase tm h th).up_down ∧
      (calculate_control atanDeg po phase tm h th).up_down ≤ 100 ∧
      -100 ≤ (calculate_control atanDeg po phase tm h th).yaw ∧
      (calculate_control atanDeg po phase tm h th).yaw ≤ 100 := by
  refine ⟨?_, ?_, ?_, ?_, ?_, ?_, ?_, ?_⟩ <;>
    first
      | exact neg_le_clamp _
      | exact clamp_le _

/-- C2: in every state reachable from the initial state
(phase=TAKEOFF, target_id=1, reached_id=0) by any sequence of
`update_state` calls, `target_id = reached_id + 1` (hence
`target_id ≥ 1`), so the landing guard `target_id == 0` never holds and
`update_state` never sets the phase to LANDING. -/
theorem C2_reachable_invariant (t0 : ℚ) (ticks : List Tick) :
    (run (initState t0) ticks).target_id = (run (initState t0) ticks).reached_id + 1 ∧
      1 ≤ (run (initState t0) ticks).target_id ∧
      (run (initState t0) ticks).phase ≠ NavigationPhase.LANDING := by
  have hinv := run_inv ticks (initState t0) rfl (by simp [initState])
  refine ⟨hinv.1, ?_, hinv.2⟩
  rw [hinv.1]
  omega

/-- C3: at the failing input (target marker with center_x = 320 and
center_y = 192, giving dx = 1 and dy = 0), the code computes a rotation
error of 90 under numpy scalar semantics (division by zero yields
infinity without raising, so the except handler of line 142 is dead),
while the spec's rule yields 0; for dx = 0 both agree on 0. -/
theorem C3_zero_denominator_divergence (atanDeg : ℚ → ℚ) (dy : ℚ) :
    rotation_error atanDeg ((320 - TARGET_X) / TARGET_X) ((TARGET_Y - 192) / TARGET_Y) = 90 ∧
      rotation_error_specModel atanDeg ((320 - TARGET_X) / TARGET_X)
        ((TARGET_Y - 192) / TARGET_Y) = 0 ∧
      rotation_error atanDeg 0 dy = 0 := by
  refine ⟨?_, ?_, ?_⟩
  · rw [rotation_error]
    norm_num [TARGET_X, TARGET_Y]
  · rw [rotation_error_specModel]
    norm_num [TARGET_X, TARGET_Y]
  · rw [rotation_error]
    simp

/-- C4 counterexample: two runs of `update_state` followed by
`is_target_lost`, given identical explicit arguments (marker list,
heights, and the same query instant 20) and identical prior state, give
different boolean results when the internally read `time.time()` value
during `update_state` differs (0 versus 18) — so the engine's results
are not a function of the explicit arguments and prior state alone. -/
theorem C4_counterexample :
    is_target_lost
        (update_state (initState 0)
          [{ id := 1, center_x := 160, center_y := 100, distance := 30 }] 150 150 0)
        20 = true ∧
      is_target_lost
        (update_state (initState 0)
          [{ id := 1, center_x := 160, center_y := 100, distance := 30 }] 150 150 18)
        20 = false := by
  have h0 := update_state_last_target_time_some (initState 0)
    [{ id := 1, center_x := 160, center_y := 100, distance := 30 }] 150 150 0
    { id := 1, center_x := 160, center_y := 100, distance := 30 } (by decide)
  have h18 := update_state_last_target_time_some (initState 0)
    [{ id := 1, center_x := 160, center_y := 100, distance := 30 }] 150 150 18
    { id := 1, center_x := 160, center_y := 100, distance := 30 } (by decide)
  rw [is_target_lost, is_target_lost, h0, h18]
  constructor
  · rw [decide_eq_true_iff]
    norm_num [TARGET_LOST_TIMEOUT_SEC]
  · rw [decide_eq_false_iff_not]
    norm_num [TARGET_LOST_TIMEOUT_SEC]

/-- C4 (amended): the discrete outcome of `update_state` — phase,
target_id, reached_id, max_id — is a deterministic function of the prior
state's discrete fields and the explicit arguments, independent of the
internally read clock values; the timestamp fields, and with them
`is_target_lost` and `should_update_max_id`, additionally depend on the
internally read `time.time()` values, so full determinism holds only
for runs with identical internal clock readings. -/
theorem C4_amended_discrete_determinism (s1 s2 : NavigationState)
    (l1 l2 : List Tick)
    (hds : discretePart s1 = discretePart s2)
    (hargs : l1.map (fun t => (t.markers, t.current_height, t.target_height))
           = l2.map (fun t => (t.markers, t.current_height, t.target_height))) :
    discretePart (run s1 l1) = discretePart (run s2 l2) :=
  run_discrete_congr l1 l2 s1 s2 hds hargs

theorem C4_amended_witness :
    discretePart (run (initState 0)
        [{ markers := [{ id := 1, center_x := 160, center_y := 100, distance := 5 }],
           current_height := 150, target_height := 150, time := 0 }])
      = discretePart (run (initState 5)
        [{ markers := [{ id := 1, center_x := 160, center_y := 100, distance := 5 }],
           current_height := 150, target_height := 150, time := 9 }]) :=
  C4_amended_discrete_determinism (initState 0) (initState 5) _ _
    (by decide) (by decide)

/-- C5: across every sequence of `update_state` calls from the initial
state, `target_id` is monotonically non-decreasing and `max_id` never
decreases; `reached_id` equals the number of forward (marker-advance)
transitions that occurred; and a call whose non-empty observation list
has maximum identity strictly above the current `max_id` sets `max_id`
to that maximum and refreshes the max-id timestamp. -/
theorem C5_monotone_and_max_update (t0 : ℚ) (ticks extra : List Tick)
    (s : NavigationState) (ms : List MarkerInfo) (h th t : ℚ) :
    (run (initState t0) ticks).target_id ≤
        (run (initState t0) (ticks ++ extra)).target_id ∧
      (run (initState t0) ticks).max_id ≤
        (run (initState t0) (ticks ++ extra)).max_id ∧
      (run (initState t0) ticks).reached_id = countForward (initState t0) ticks ∧
      (ms ≠ [] → listMaxId ms > s.max_id →
        (update_state s ms h th t).max_id = listMaxId ms ∧
          (update_state s ms h th t).last_max_id_time = t) := by
  refine ⟨?_, ?_, ?_, ?_⟩
  · rw [run_append]
    exact run_target_le extra _
  · rw [run_append]
    exact run_max_le extra _
  · simpa [initState] using run_reached_count ticks (initState t0)
  · intro hne hgt
    exact update_state_max_set s ms h th t hne hgt

theorem C5_witness :
    (update_state (initState 0)
        [{ id := 2, center_x := 160, center_y := 100, distance := 30 }] 150 150 7).max_id =
      listMaxId [{ id := 2, center_x := 160, center_y := 100, distance := 30 }] ∧
    (update_state (initState 0)
        [{ id := 2, center_x := 160, center_y := 100, distance := 30 }] 150 150 7).last_max_id_time = 7 :=
  (C5_monotone_and_max_update 0 [] [] (initState 0)
      [{ id := 2, center_x := 160, center_y := 100, distance := 30 }] 150 150 7).2.2.2
    (by decide) (by decide)

/-- C6: in phase APPROACHING with the current target marker observed at
distance ≤ threshold, a nonzero `target_id` makes `reached_id` and
`target_id` each increase by exactly 1 with the phase staying
APPROACHING, while `target_id = 0` moves the phase to LANDING leaving
both counters unchanged; and LANDING is terminal under any further
sequence of `update_state` calls. -/
theorem C6_approach_advance_or_land (s : NavigationState) (ms : List MarkerInfo)
    (h th t : ℚ) (tm : MarkerInfo) (ticks : List Tick)
    (hph : s.phase = NavigationPhase.APPROACHING)
    (hf : findTarget ms s.target_id = some tm)
    (hdist : tm.distance ≤ THRESHOLD) :
    (s.target_id ≠ 0 →
      (update_state s ms h th t).reached_id = s.reached_id + 1 ∧
        (update_state s ms h th t).target_id = s.target_id + 1 ∧
        (update_state s ms h th t).phase = NavigationPhase.APPROACHING) ∧
      (s.target_id = 0 →
        (update_state s ms h th t).phase = NavigationPhase.LANDING ∧
          (update_state s ms h th t).reached_id = s.reached_id ∧
          (update_state s ms h th t).target_id = s.target_id ∧
          (run (update_state s ms h th t) ticks).phase = NavigationPhase.LANDING) := by
  constructor
  · intro hz
    exact update_state_approach_advance s ms h th t tm hph hf hdist hz
  · intro hz
    obtain ⟨hp, hr, ht2⟩ := update_state_approach_land s ms h th t tm hph hf hdist hz
    exact ⟨hp, hr, ht2, run_landing ticks _ hp⟩

theorem C6_witness :
    (update_state ⟨NavigationPhase.APPROACHING, 0, 5, 9, 0, 0⟩
        [{ id := 0, center_x := 160, center_y := 100, distance := 3 }] 150 150 1).phase =
      NavigationPhase.LANDING ∧
    (update_state ⟨NavigationPhase.APPROACHING, 0, 5, 9, 0, 0⟩
        [{ id := 0, center_x := 160, center_y := 100, distance := 3 }] 150 150 1).reached_id = 5 ∧
    (update_state ⟨NavigationPhase.APPROACHING, 0, 5, 9, 0, 0⟩
        [{ id := 0, center_x := 160, center_y := 100, distance := 3 }] 150 150 1).target_id = 0 ∧
    (run (update_state ⟨NavigationPhase.APPROACHING, 0, 5, 9, 0, 0⟩
        [{ id := 0, center_x := 160, center_y := 100, distance := 3 }] 150 150 1) []).phase =
      NavigationPhase.LANDING := by
  have hc := C6_approach_advance_or_land ⟨NavigationPhase.APPROACHING, 0, 5, 9, 0, 0⟩
    [{ id := 0, center_x := 160, center_y := 100, distance := 3 }] 150 150 1
    { id := 0, center_x := 160, center_y := 100, distance := 3 } [] rfl (by decide) (by decide)
  exact hc.2 rfl

/-- C7: in phase TAKEOFF, the phase becomes ALIGNING iff
`|current_height - target_height| ≤ height_tolerance` on that call; and
once the phase has left TAKEOFF, no sequence of `update_state` calls
returns it to TAKEOFF. -/
theorem C7_takeoff_iff_and_no_return (s : NavigationState) (ms : List MarkerInfo)
    (h th t : ℚ) (ticks : List Tick) :
    (s.phase = NavigationPhase.TAKEOFF →
      ((update_state s ms h th t).phase = NavigationPhase.ALIGNING ↔
        |h - th| ≤ HEIGHT_TOLERANCE_CM)) ∧
      (s.phase ≠ NavigationPhase.TAKEOFF →
        (run s ticks).phase ≠ NavigationPhase.TAKEOFF) := by
  constructor
  · intro hph
    rw [update_state_phase_of_takeoff s ms h th t hph]
    split_ifs with hc
    · simp [hc]
    · simp [hc]
  · exact run_no_takeoff_return ticks s

theorem C7_witness :
    ((update_state (initState 0) [] 150 150 1).phase = NavigationPhase.ALIGNING ↔
      |(150 : ℚ) - 150| ≤ HEIGHT_TOLERANCE_CM) ∧
    (run ⟨NavigationPhase.LANDING, 1, 0, 0, 0, 0⟩ []).phase ≠ NavigationPhase.TAKEOFF := by
  have hc := C7_takeoff_iff_and_no_return (initState 0) [] 150 150 1 []
  have hd := C7_takeoff_iff_and_no_return ⟨NavigationPhase.LANDING, 1, 0, 0, 0, 0⟩ [] 150 150 1 []
  exact ⟨hc.1 rfl, hd.2 (by decide)⟩

/-- C8 counterexample: in phase ALIGNING with target_id = 1, the
observation list [id 1 at distance 30, id 1 at distance 5] contains a
marker of the target identity within the threshold, yet the phase stays
ALIGNING, because the code resolves the target marker as the FIRST
list entry with the target identity (distance 30 > 25). -/
theorem C8_counterexample :
    ({ id := 1, center_x := 160, center_y := 100, distance := 5 } : MarkerInfo) ∈
        [({ id := 1, center_x := 160, center_y := 100, distance := 30 } : MarkerInfo),
          { id := 1, center_x := 160, center_y := 100, distance := 5 }] ∧
      ({ id := 1, center_x := 160, center_y := 100, distance := 5 } : MarkerInfo).id =
        (⟨NavigationPhase.ALIGNING, 1, 0, 1, 0, 0⟩ : NavigationState).target_id ∧
      ({ id := 1, center_x := 160, center_y := 100, distance := 5 } : MarkerInfo).distance ≤
        THRESHOLD ∧
      (update_state ⟨NavigationPhase.ALIGNING, 1, 0, 1, 0, 0⟩
          [{ id := 1, center_x := 160, center_y := 100, distance := 30 },
            { id := 1, center_x := 160, center_y := 100, distance := 5 }] 150 150 1).phase =
        NavigationPhase.ALIGNING := by
  decide

/-- C8 (amended): in phase ALIGNING the phase becomes APPROACHING iff
the FIRST observation in the list whose identity equals the current
target_id exists and has distance ≤ threshold; an empty list, or a list
containing only markers of other identities, leaves the phase at
ALIGNING. -/
theorem C8_aligning_first_match (s : NavigationState) (ms : List MarkerInfo)
    (h th t : ℚ) (hph : s.phase = NavigationPhase.ALIGNING) :
    ((update_state s ms h th t).phase = NavigationPhase.APPROACHING ↔
      (∃ tm, findTarget ms s.target_id = some tm ∧ tm.distance ≤ THRESHOLD)) ∧
      ((∀ m ∈ ms, m.id ≠ s.target_id) →
        (update_state s ms h th t).phase = NavigationPhase.ALIGNING) := by
  have hp := update_state_phase_of_aligning s ms h th t hph
  constructor
  · rw [hp]
    cases hf : findTarget ms s.target_id with
    | none => simp
    | some m =>
        dsimp only
        split_ifs with hc
        · simp [hc]
        · simp [hc]
  · intro hnone
    have hf : findTarget ms s.target_id = none := by
      rw [findTarget, List.find?_eq_none]
      intro m hm
      simpa using hnone m hm
    rw [hp, hf]

theorem C8_amended_witness :
    (update_state ⟨NavigationPhase.ALIGNING, 1, 0, 1, 0, 0⟩
        [{ id := 1, center_x := 160, center_y := 100, distance := 5 }] 150 150 1).phase =
      NavigationPhase.APPROACHING := by
  have hc := C8_aligning_first_match ⟨NavigationPhase.ALIGNING, 1, 0, 1, 0, 0⟩
    [{ id := 1, center_x := 160, center_y := 100, distance := 5 }] 150 150 1 rfl
  exact hc.1.mpr ⟨{ id := 1, center_x := 160, center_y := 100, distance := 5 },
    by decide, by decide⟩

/-- C9: with the target observation absent, `calculate_control` returns
left_right = forward_backward = yaw = 0 and up_down following the
bang-bang rule (-20 above the tolerance band, +20 below it, 0 inside);
in particular, within tolerance the whole command is zero. -/
theorem C9_no_target_bang_bang (atanDeg : ℚ → ℚ) (po : PidOracle)
    (phase : NavigationPhase) (h th : ℚ) :
    calculate_control atanDeg po phase none h th =
      { left_right := 0, forward_backward := 0,
        up_down :=
          if h > th + HEIGHT_TOLERANCE_CM then -20
          else if h < th - HEIGHT_TOLERANCE_CM then 20
          else 0,
        yaw := 0 } := by
  unfold calculate_control
  dsimp only
  split_ifs with h1 h2 <;> rfl

/-- C10: `is_target_lost` returns true exactly when the elapsed time
since the last sighting of the current target strictly exceeds the
configured timeout, and false when the elapsed time is at or below it. -/
theorem C10_is_target_lost_boundary (s : NavigationState) (now : ℚ) :
    (is_target_lost s now = true ↔
      now - s.last_target_time > TARGET_LOST_TIMEOUT_SEC) ∧
      (is_target_lost s now = false ↔
        now - s.last_target_time ≤ TARGET_LOST_TIMEOUT_SEC) := by
  unfold is_target_lost
  constructor
  · exact decide_eq_true_iff
  · rw [decide_eq_false_iff_not]
    exact not_lt

end TelloNav
